import Mathlib

/-!
Verification of the Atlas Forge branch-generation service against its
natural-language specification.

The development shallowly embeds the JavaScript/TypeScript sources:

* `src/server/routes/forge.mjs` — the estimate/start/stream/cancel/status
  HTTP handlers and the child-process lifecycle callbacks; embedded as pure
  functions (`estimateTotalBranches`, `startTotalBranches`, the message
  builders) and as a step function `step` over an explicit server state
  `SrvState`, with one event per callback invocation.
* the JSON database layer (`jsonDb`, the implementation behind the
  `atlasDb` calls used by the forge routes) — embedded as a pure state
  `DbState` with one operation per exported method (`DbOp` / `applyDb`).
* `src/client/src/hooks/useProgressMetrics.ts` — the memoized progress,
  speed and eta computations, embedded as `progressOf`, `speedOf`, `etaOf`.

JavaScript numbers are modelled as `ℚ` (all values involved are exact
decimals; `Math.floor` becomes `Int.floor`, `Math.round` becomes `round`,
which agrees with JS round-half-up on rationals), integer-valued fields as
`ℤ`, JS objects with dynamic fields as association lists `List (String × Val)`
in literal field order, and `null`/absent values as `Option`.
-/

/-- Values stored in modelled JavaScript objects: strings, numbers, or
nested objects. -/
inductive Val where
  | str : String → Val
  | num : ℚ → Val
  | obj : List (String × Val) → Val

/-- A modelled JavaScript object: fields in insertion order. -/
abbrev Rec := List (String × Val)

/-- Field access `o[k]`: the first binding of `k`, `none` when absent. -/
def getField (r : Rec) (k : String) : Option Val :=
  (r.find? (fun p => p.1 == k)).map (fun p => p.2)

/-- Job configuration as read by the forge route handlers
(`src/server/routes/forge.mjs`): the handlers read `periodMin`, `periodMax`,
`comparator`, `thresholdMin`, `thresholdMax`, `thresholdStep` and
`tickers`; the `indicator` field is carried but never consulted by them. -/
structure ForgeConfig where
  indicator : String
  periodMin : ℤ
  periodMax : ℤ
  tickers : List String
  comparator : String
  thresholdMin : ℚ
  thresholdMax : ℚ
  thresholdStep : ℚ

/-- Branch count computed by the `POST /api/forge/estimate` handler
(forge.mjs lines 21-27): `periodRange * comparatorCount * thresholdCount *
tickerCount`. -/
def estimateTotalBranches (c : ForgeConfig) : ℤ :=
  let periodRange : ℤ := c.periodMax - c.periodMin + 1
  let comparatorCount : ℤ := if c.comparator = "BOTH" then 2 else 1
  let thresholdCount : ℤ := ⌊(c.thresholdMax - c.thresholdMin) / c.thresholdStep⌋ + 1
  let tickerCount : ℤ := c.tickers.length
  periodRange * comparatorCount * thresholdCount * tickerCount

/-- Branch count computed by the `POST /api/forge/start` handler
(forge.mjs lines 49-54); the source duplicates the estimate computation
verbatim, and the duplication is kept here. -/
def startTotalBranches (c : ForgeConfig) : ℤ :=
  let periodRange : ℤ := c.periodMax - c.periodMin + 1
  let comparatorCount : ℤ := if c.comparator = "BOTH" then 2 else 1
  let thresholdCount : ℤ := ⌊(c.thresholdMax - c.thresholdMin) / c.thresholdStep⌋ + 1
  let tickerCount : ℤ := c.tickers.length
  periodRange * comparatorCount * thresholdCount * tickerCount

/-- Modelled from the spec: whether an indicator family is windowless.
The client helper `isWindowlessIndicator` (indicatorUtils) returns `true`
for the metric `'Date'` directly and otherwise consults the `INDICATORS`
table of `@/lib/indicators`, a file that is not part of the sources here;
the table's windowless entries are taken from the spec glossary, which
names `Current Price` and `Date` as the windowless families. -/
def isWindowlessIndicator (metric : String) : Bool :=
  metric == "Date" || metric == "Current Price"

/-- Branch count demanded by the spec sentence for claim C1:
`totalBranches = tickers * windows * comparators * thresholds` with
`windows = periodMax - periodMin + 1`, or `1` for windowless families. -/
def specTotalBranches (c : ForgeConfig) : ℤ :=
  let windows : ℤ :=
    if isWindowlessIndicator c.indicator then 1 else c.periodMax - c.periodMin + 1
  let comparators : ℤ := if c.comparator = "BOTH" then 2 else 1
  let thresholds : ℤ := ⌊(c.thresholdMax - c.thresholdMin) / c.thresholdStep⌋ + 1
  (c.tickers.length : ℤ) * windows * comparators * thresholds

/-- A configuration with a windowless family and a non-trivial period
range: one ticker, family `Date`, periods 1..2, a single threshold. -/
def windowlessCfg : ForgeConfig :=
  { indicator := "Date", periodMin := 1, periodMax := 2, tickers := ["SPY"],
    comparator := "LT", thresholdMin := 0, thresholdMax := 0, thresholdStep := 1 }

/-- C1, counterexample. The handlers never special-case windowless
families: for the family `Date` with periods 1..2 both handlers count
`2` branches, while the claimed formula (windows = 1 for a windowless
family) demands `1`. -/
theorem forge_totalBranches_windowless_counterexample :
    estimateTotalBranches windowlessCfg = 2 ∧
    startTotalBranches windowlessCfg = 2 ∧
    specTotalBranches windowlessCfg = 1 := by
  refine ⟨?_, ?_, ?_⟩ <;>
    simp [estimateTotalBranches, startTotalBranches, specTotalBranches,
      windowlessCfg, isWindowlessIndicator]

/-- C1, amended. For every configuration both handlers compute the same
`totalBranches`, equal to
`tickers * (periodMax - periodMin + 1) * comparators * thresholds` with
`comparators = 2` exactly for `BOTH` and
`thresholds = floor((thresholdMax - thresholdMin) / thresholdStep) + 1`;
the window factor is `periodMax - periodMin + 1` for every family,
windowless ones included. -/
theorem forge_totalBranches_product_formula (c : ForgeConfig) :
    estimateTotalBranches c = startTotalBranches c ∧
    estimateTotalBranches c =
      (c.tickers.length : ℤ) * (c.periodMax - c.periodMin + 1) *
        (if c.comparator = "BOTH" then 2 else 1) *
        (⌊(c.thresholdMax - c.thresholdMin) / c.thresholdStep⌋ + 1) := by
  constructor
  · rfl
  · unfold estimateTotalBranches
    ring

/-- Job status record as consumed by the client progress hook
(`useProgressMetrics.ts`): only the two counters are read. -/
structure JobStatus where
  totalBranches : ℤ
  completedBranches : ℤ

/-- Progress percentage from `useProgressMetrics` (lines 62-66 of the
hook): `0` for a null status or a zero total, otherwise
`Math.round((completedBranches / totalBranches) * 100)`. -/
def progressOf (status : Option JobStatus) : ℤ :=
  match status with
  | none => 0
  | some s =>
      if s.totalBranches = 0 then 0
      else round (((s.completedBranches : ℚ) / (s.totalBranches : ℚ)) * 100)

/-- Speed in branches per second from `useProgressMetrics` (lines 68-72):
`0` for a null status or zero elapsed, otherwise
`Math.round(completedBranches / elapsed)`. -/
def speedOf (status : Option JobStatus) (elapsed : ℤ) : ℤ :=
  match status with
  | none => 0
  | some s =>
      if elapsed = 0 then 0
      else round ((s.completedBranches : ℚ) / (elapsed : ℚ))

/-- Remaining-time estimate from `useProgressMetrics` (lines 74-78): `0`
for a null status or zero speed, otherwise
`Math.round((totalBranches - completedBranches) / speed)`. -/
def etaOf (status : Option JobStatus) (elapsed : ℤ) : ℤ :=
  match status with
  | none => 0
  | some s =>
      if speedOf status elapsed = 0 then 0
      else round (((s.totalBranches - s.completedBranches : ℤ) : ℚ) /
        (speedOf status elapsed : ℚ))

/-- C10. The progress, speed and eta computations are total with the
claimed case analysis: progress is `0` for a null status or zero
`totalBranches` and otherwise `round(100 * completed / total)`; speed is
`0` for a null status or zero elapsed time and otherwise
`round(completed / elapsed)`; eta is `0` when the speed is `0` (in
particular for a null status) and otherwise `round((total - completed) /
speed)`. No case divides by zero. -/
theorem useProgressMetrics_total_spec (s : JobStatus) (elapsed : ℤ) :
    progressOf none = 0 ∧ speedOf none elapsed = 0 ∧ etaOf none elapsed = 0 ∧
    progressOf (some s) =
      (if s.totalBranches = 0 then 0
       else round ((100 : ℚ) * (s.completedBranches : ℚ) / (s.totalBranches : ℚ))) ∧
    speedOf (some s) elapsed =
      (if elapsed = 0 then 0 else round ((s.completedBranches : ℚ) / (elapsed : ℚ))) ∧
    etaOf (some s) elapsed =
      (if speedOf (some s) elapsed = 0 then 0
       else round (((s.totalBranches : ℚ) - (s.completedBranches : ℚ)) /
         (speedOf (some s) elapsed : ℚ))) := by
  refine ⟨rfl, rfl, rfl, ?_, rfl, ?_⟩
  · unfold progressOf
    rcases eq_or_ne s.totalBranches 0 with h | h
    · simp [h]
    · have : ((s.completedBranches : ℚ) / (s.totalBranches : ℚ)) * 100 =
          (100 : ℚ) * (s.completedBranches : ℚ) / (s.totalBranches : ℚ) := by ring
      simp [h, this]
  · unfold etaOf
    rcases eq_or_ne (speedOf (some s) elapsed) 0 with h | h
    · simp [h]
    · push_cast
      simp [h]

/-- Result fields reported by the engine for one passing branch, as read
by the forge completion handler (`branchResult.*` in forge.mjs lines
184-201). -/
structure PyBranchResult where
  ticker : String
  indicator : String
  period : ℤ
  comparator : String
  threshold : ℚ
  TIM : ℚ
  TIMAR : ℚ
  MaxDD : ℚ
  CAGR : ℚ
  Trades : ℚ
  AvgHold : ℚ
  Sharpe : ℚ
  DD3 : ℚ
  DD50 : ℚ
  DD95 : ℚ
  TIMAR3 : ℚ

/-- The object built for one passing branch by the `resultsData` mapping
of the completion handler (forge.mjs lines 184-201), with fields in the
literal order of the source. Both `signalTicker` and `investTicker` are
set from `branchResult.ticker`. -/
def resultRowData (jobId : ℤ) (br : PyBranchResult) : Rec :=
  [ ("jobId", Val.num (jobId : ℚ)),
    ("signalTicker", Val.str br.ticker),
    ("investTicker", Val.str br.ticker),
    ("indicator", Val.str br.indicator),
    ("period", Val.num (br.period : ℚ)),
    ("comparator", Val.str br.comparator),
    ("threshold", Val.num br.threshold),
    ("isTim", Val.num br.TIM),
    ("isTimar", Val.num br.TIMAR),
    ("isMaxdd", Val.num br.MaxDD),
    ("isCagr", Val.num br.CAGR),
    ("isTrades", Val.num br.Trades),
    ("isAvgHold", Val.num br.AvgHold),
    ("isSharpe", Val.num br.Sharpe),
    ("isDd3", Val.num br.DD3),
    ("isDd50", Val.num br.DD50),
    ("isDd95", Val.num br.DD95),
    ("isTimar3", Val.num br.TIMAR3) ]

/-- Row stored by `jsonDb.batchCreateResults` (and, with a per-row
timestamp, `jsonDb.createResult`): the spread `{id, ...data, createdAt}`
in field order. -/
def newRec (id : ℤ) (data : Rec) (createdAt : String) : Rec :=
  ("id", Val.num (id : ℚ)) :: data ++ [("createdAt", Val.str createdAt)]

/-- The complete stored row for one passing branch: the completion
handler's mapping composed with `batchCreateResults`. -/
def savedResultRow (jobId id : ℤ) (createdAt : String) (br : PyBranchResult) : Rec :=
  newRec id (resultRowData jobId br) createdAt

/-- A concrete engine branch result used in counterexamples. -/
def sampleBranchResult : PyBranchResult :=
  { ticker := "SPY", indicator := "RSI", period := 10, comparator := "LT",
    threshold := 30, TIM := 40, TIMAR := 50, MaxDD := -10, CAGR := 20,
    Trades := 60, AvgHold := 3, Sharpe := 1, DD3 := -12, DD50 := -2,
    DD95 := 0, TIMAR3 := 35 }

/-- C6, counterexample. The stored row for a passing branch carries
neither the out-of-sample metrics nor the full in-sample tuple: the
schema's OOS column names (`oosTim`, `oosTimar`, `oosMaxdd`, `oosCagr`)
are all absent from the saved row, and so is `isTimardd` — of the twelve
scalars of the spec's MetricTuple, the `resultsData` mapping writes only
eleven `is*` fields, never TIMARDD. -/
theorem saved_row_missing_oos_counterexample :
    getField (savedResultRow 1 1 "2024-01-01T00:00:00.000Z" sampleBranchResult) "oosTim"
      = none ∧
    getField (savedResultRow 1 1 "2024-01-01T00:00:00.000Z" sampleBranchResult) "oosTimar"
      = none ∧
    getField (savedResultRow 1 1 "2024-01-01T00:00:00.000Z" sampleBranchResult) "oosMaxdd"
      = none ∧
    getField (savedResultRow 1 1 "2024-01-01T00:00:00.000Z" sampleBranchResult) "oosCagr"
      = none ∧
    getField (savedResultRow 1 1 "2024-01-01T00:00:00.000Z" sampleBranchResult) "isTimardd"
      = none := by
  refine ⟨rfl, rfl, rfl, rfl, rfl⟩

/-- C6, amended. Every saved row for a passing branch carries the Branch
fields with `investTicker` equal to `signalTicker` (both are the engine's
`ticker`), eleven of the twelve in-sample metrics (TIM, TIMAR, MaxDD,
CAGR, trades, avgHold, sharpe, DD3, DD50, DD95, TIMAR3 — TIMARDD is not
written), and a creation timestamp; it carries neither an `isTimardd`
field nor any out-of-sample metric. -/
theorem saved_row_fields_spec (jobId id : ℤ) (t : String) (br : PyBranchResult) :
    getField (savedResultRow jobId id t br) "investTicker"
      = getField (savedResultRow jobId id t br) "signalTicker" ∧
    getField (savedResultRow jobId id t br) "signalTicker" = some (Val.str br.ticker) ∧
    getField (savedResultRow jobId id t br) "jobId" = some (Val.num (jobId : ℚ)) ∧
    getField (savedResultRow jobId id t br) "indicator" = some (Val.str br.indicator) ∧
    getField (savedResultRow jobId id t br) "period" = some (Val.num (br.period : ℚ)) ∧
    getField (savedResultRow jobId id t br) "comparator" = some (Val.str br.comparator) ∧
    getField (savedResultRow jobId id t br) "threshold" = some (Val.num br.threshold) ∧
    getField (savedResultRow jobId id t br) "isTim" = some (Val.num br.TIM) ∧
    getField (savedResultRow jobId id t br) "isTimar" = some (Val.num br.TIMAR) ∧
    getField (savedResultRow jobId id t br) "isMaxdd" = some (Val.num br.MaxDD) ∧
    getField (savedResultRow jobId id t br) "isCagr" = some (Val.num br.CAGR) ∧
    getField (savedResultRow jobId id t br) "isTrades" = some (Val.num br.Trades) ∧
    getField (savedResultRow jobId id t br) "isAvgHold" = some (Val.num br.AvgHold) ∧
    getField (savedResultRow jobId id t br) "isSharpe" = some (Val.num br.Sharpe) ∧
    getField (savedResultRow jobId id t br) "isDd3" = some (Val.num br.DD3) ∧
    getField (savedResultRow jobId id t br) "isDd50" = some (Val.num br.DD50) ∧
    getField (savedResultRow jobId id t br) "isDd95" = some (Val.num br.DD95) ∧
    getField (savedResultRow jobId id t br) "isTimar3" = some (Val.num br.TIMAR3) ∧
    getField (savedResultRow jobId id t br) "createdAt" = some (Val.str t) ∧
    getField (savedResultRow jobId id t br) "isTimardd" = none ∧
    getField (savedResultRow jobId id t br) "oosTim" = none := by
  exact ⟨rfl, rfl, rfl, rfl, rfl, rfl, rfl, rfl, rfl, rfl,
    rfl, rfl, rfl, rfl, rfl, rfl, rfl, rfl, rfl, rfl, rfl⟩

/-- Field update `o[k] = v` with JavaScript object semantics: an existing
key keeps its position and gets the new value, a new key is appended. -/
def setField (r : Rec) (k : String) (v : Val) : Rec :=
  if (r.find? (fun p => p.1 == k)).isSome then
    r.map (fun p => if p.1 == k then (k, v) else p)
  else r ++ [(k, v)]

/-- `Object.assign(target, updates)`: apply every update field in order. -/
def jsAssign (r updates : Rec) : Rec :=
  updates.foldl (fun acc p => setField acc p.1 p.2) r

/-- Update the first record satisfying the test (`Array.prototype.find`
followed by in-place mutation), leaving the rest untouched. -/
def updateFirst (l : List Rec) (p : Rec → Bool) (f : Rec → Rec) : List Rec :=
  match l with
  | [] => []
  | r :: rs => if p r then f r :: rs else r :: updateFirst rs p f

/-- Numeric id test `record.id === id` used by the update operations. -/
def idMatches (r : Rec) (id : ℤ) : Bool :=
  match getField r "id" with
  | some (Val.num q) => decide (q = (id : ℚ))
  | _ => false

/-- Ticker test `t.ticker === ticker` used by `updateTickerMetadata`. -/
def tickerMatches (r : Rec) (ticker : String) : Bool :=
  match getField r "ticker" with
  | some (Val.str s) => s == ticker
  | _ => false

/-- Key used when the getters sort by creation time; ISO timestamps
compare lexicographically in chronological order, so the `new Date(..)`
subtraction of the source is modelled by string comparison. -/
def createdAtKey (r : Rec) : String :=
  match getField r "createdAt" with
  | some (Val.str s) => s
  | _ => ""

/-- In-place descending sort by creation time performed by
`getDownloads` and `getAllJobs` (`db.xs.sort((a, b) => new
Date(b.createdAt) - new Date(a.createdAt))`). -/
def sortByCreatedDesc (l : List Rec) : List Rec :=
  l.mergeSort (fun a b => createdAtKey b ≤ createdAtKey a)

/-- State of the JSON database (`jsonDb`): the five collections, the last
sync map, and the id counters `nextId.downloads/jobs/results`. -/
structure DbState where
  downloads : List Rec
  jobs : List Rec
  results : List Rec
  tickerRegistry : List Rec
  lastSync : Rec
  nextDownloadId : ℤ
  nextJobId : ℤ
  nextResultId : ℤ

/-- JS truthiness and numeric reading of a sort-key value: an absent
field and the number `0` both give `0` (`a[sortBy] || 0`); a numeric
field gives its value. A string- or object-valued field is also read as
`0` here — the source would produce `NaN` comparisons there, so theorems
about sorting carry a hypothesis restricting the sorted field to numeric
or absent values. -/
def numOrZero (v : Option Val) : ℚ :=
  match v with
  | some (Val.num q) => q
  | _ => 0

/-- Sort key of one row for `jsonDb.getResults`. -/
def sortKeyOf (sortBy : String) (r : Rec) : ℚ :=
  numOrZero (getField r sortBy)

/-- Whether one value is numeric or absent, the domain on which the
modelled sort comparator agrees with the source. -/
def numericOrAbsent (v : Option Val) : Bool :=
  match v with
  | none => true
  | some (Val.num _) => true
  | _ => false

/-- The stable sort of `jsonDb.getResults`: comparator `bVal - aVal` for
`'desc'` and `aVal - bVal` otherwise. -/
def resultsSorted (sortBy order : String) (l : List Rec) : List Rec :=
  if order = "desc" then
    l.mergeSort (fun a b => decide (sortKeyOf sortBy b ≤ sortKeyOf sortBy a))
  else
    l.mergeSort (fun a b => decide (sortKeyOf sortBy a ≤ sortKeyOf sortBy b))

/-- Row filter `r.jobId === jobId` of `jsonDb.getResults`. -/
def jobIdMatchesRow (r : Rec) (jobId : ℤ) : Bool :=
  match getField r "jobId" with
  | some (Val.num q) => decide (q = (jobId : ℚ))
  | _ => false

/-- Return value of `jsonDb.getResults(jobId, sortBy, order, limit)`:
filter by job, sort when `sortBy` is truthy (non-empty), truncate when
`limit` is truthy (non-null and non-zero). -/
def getResultsList (s : DbState) (jobId : ℤ) (sortBy order : String)
    (limit : Option ℕ) : List Rec :=
  let results := s.results.filter (fun r => jobIdMatchesRow r jobId)
  let sorted := if sortBy = "" then results else resultsSorted sortBy order results
  match limit with
  | none => sorted
  | some n => if n = 0 then sorted else sorted.take n

/-- One invocation of an exported `jsonDb` method, with its arguments. -/
inductive DbOp where
  | createDownload (data : Rec) (now : String)
  | updateDownload (id : ℤ) (updates : Rec)
  | getDownloads
  | createJob (data : Rec) (now : String)
  | updateJob (id : ℤ) (updates : Rec)
  | getJob (id : ℤ)
  | getAllJobs
  | createResult (data : Rec) (now : String)
  | batchCreateResults (rows : List Rec) (now : String)
  | getResults (jobId : ℤ) (sortBy order : String) (limit : Option ℕ)
  | syncTickerRegistry (tickers : List Rec) (now : String)
  | getTickerRegistry
  | getRegistryStats
  | searchRegistry (q : String)
  | getMissingMetadata
  | updateTickerMetadata (ticker : String) (meta : Rec)
  | getLastSyncState
  | setLastSyncState (source : String) (syncData : Val)

/-- State effect of each `jsonDb` method. The create operations append a
fresh record and advance the id counter; the update operations
`Object.assign` onto the first matching record; `getDownloads` and
`getAllJobs` sort their collection in place; `getResults` and the other
read-only methods leave the state unchanged. -/
def applyDb (op : DbOp) (s : DbState) : DbState :=
  match op with
  | DbOp.createDownload data now =>
      { s with
          downloads := s.downloads ++ [newRec s.nextDownloadId data now],
          nextDownloadId := s.nextDownloadId + 1 }
  | DbOp.updateDownload id updates =>
      { s with
          downloads := updateFirst s.downloads (fun r => idMatches r id)
            (fun r => jsAssign r updates) }
  | DbOp.getDownloads => { s with downloads := sortByCreatedDesc s.downloads }
  | DbOp.createJob data now =>
      { s with
          jobs := s.jobs ++ [newRec s.nextJobId data now],
          nextJobId := s.nextJobId + 1 }
  | DbOp.updateJob id updates =>
      { s with
          jobs := updateFirst s.jobs (fun r => idMatches r id)
            (fun r => jsAssign r updates) }
  | DbOp.getJob _ => s
  | DbOp.getAllJobs => { s with jobs := sortByCreatedDesc s.jobs }
  | DbOp.createResult data now =>
      { s with
          results := s.results ++ [newRec s.nextResultId data now],
          nextResultId := s.nextResultId + 1 }
  | DbOp.batchCreateResults rows now =>
      { s with
          results := s.results ++
            rows.enum.map (fun p => newRec (s.nextResultId + p.1) p.2 now),
          nextResultId := s.nextResultId + rows.length }
  | DbOp.getResults _ _ _ _ => s
  | DbOp.syncTickerRegistry tickers now =>
      { s with
          tickerRegistry :=
            tickers.map (fun t => setField t "syncedAt" (Val.str now)) }
  | DbOp.getTickerRegistry => s
  | DbOp.getRegistryStats => s
  | DbOp.searchRegistry _ => s
  | DbOp.getMissingMetadata => s
  | DbOp.updateTickerMetadata ticker meta =>
      { s with
          tickerRegistry := updateFirst s.tickerRegistry
            (fun r => tickerMatches r ticker) (fun r => jsAssign r meta) }
  | DbOp.getLastSyncState => s
  | DbOp.setLastSyncState source syncData =>
      { s with lastSync := setField s.lastSync source syncData }

/-- C7. Stored result rows are append-only: every database operation
extends the results list at the end, so each previously appended row
keeps its position and its exact contents; no operation modifies or
removes a stored result row. -/
theorem db_results_append_only (op : DbOp) (s : DbState) :
    ∃ tail, (applyDb op s).results = s.results ++ tail := by
  cases op <;>
    first
      | exact ⟨_, rfl⟩
      | exact ⟨[], by simp [applyDb]⟩

/-- A database state holding exactly one stored result row, for job 1. -/
def sampleDb : DbState :=
  { downloads := [], jobs := [],
    results := [savedResultRow 1 1 "2024-01-01T00:00:00.000Z" sampleBranchResult],
    tickerRegistry := [], lastSync := [],
    nextDownloadId := 1, nextJobId := 2, nextResultId := 2 }

/-- C9, counterexample. With `limit = 0` (a non-null limit) `getResults`
returns every matching row instead of the first `0` rows: `if (limit)`
treats `0` as falsy and skips the truncation. -/
theorem getResults_zero_limit_counterexample :
    getResultsList sampleDb 1 "isTimar" "desc" (some 0) =
      [savedResultRow 1 1 "2024-01-01T00:00:00.000Z" sampleBranchResult] ∧
    [savedResultRow 1 1 "2024-01-01T00:00:00.000Z" sampleBranchResult] ≠ ([] : List Rec) := by
  constructor
  · show resultsSorted "isTimar" "desc"
      (sampleDb.results.filter fun r => jobIdMatchesRow r 1) = _
    have hfil : sampleDb.results.filter (fun r => jobIdMatchesRow r 1) =
        [savedResultRow 1 1 "2024-01-01T00:00:00.000Z" sampleBranchResult] := by rfl
    rw [hfil]
    unfold resultsSorted
    rw [if_pos rfl]
    exact List.mergeSort_singleton _
  · simp

/-- C9, amended. `getResults` leaves the database unchanged and returns
exactly the stored rows whose `jobId` equals the argument, ordered by the
`sortBy` field with absent or falsy values read as `0` (non-increasing
for `'desc'`, non-decreasing otherwise), truncated to the first `limit`
rows when `limit` is non-null and non-zero; a `limit` of `0` is ignored.
The hypotheses keep the statement on the domain where the model matches
the source: a non-empty `sortBy` (the source skips sorting for a falsy
field name) and numeric-or-absent values of the sorted field (the source
comparator would produce `NaN` otherwise). -/
theorem getResults_filter_sort_limit_spec
    (s : DbState) (jobId : ℤ) (sortBy order : String) (limit : Option ℕ)
    (hsort : sortBy ≠ "")
    (hnum : ∀ r ∈ s.results, numericOrAbsent (getField r sortBy) = true) :
    applyDb (DbOp.getResults jobId sortBy order limit) s = s ∧
    (getResultsList s jobId sortBy order none).Perm
      (s.results.filter (fun r => jobIdMatchesRow r jobId)) ∧
    (order = "desc" →
      (getResultsList s jobId sortBy order none).Pairwise
        (fun a b => sortKeyOf sortBy b ≤ sortKeyOf sortBy a)) ∧
    (order ≠ "desc" →
      (getResultsList s jobId sortBy order none).Pairwise
        (fun a b => sortKeyOf sortBy a ≤ sortKeyOf sortBy b)) ∧
    (∀ n : ℕ, n ≠ 0 → getResultsList s jobId sortBy order (some n) =
      (getResultsList s jobId sortBy order none).take n) ∧
    getResultsList s jobId sortBy order (some 0) =
      getResultsList s jobId sortBy order none := by
  refine ⟨rfl, ?_, ?_, ?_, ?_, ?_⟩
  · simp only [getResultsList]
    rw [if_neg hsort]
    unfold resultsSorted
    split
    · exact List.mergeSort_perm _ _
    · exact List.mergeSort_perm _ _
  · intro horder
    simp only [getResultsList]
    rw [if_neg hsort]
    unfold resultsSorted
    rw [if_pos horder]
    have h := @List.sorted_mergeSort Rec
      (fun a b : Rec => decide (sortKeyOf sortBy b ≤ sortKeyOf sortBy a))
      (fun a b c hab hbc => by
        simp only [decide_eq_true_eq] at hab hbc ⊢
        exact le_trans hbc hab)
      (fun a b => by
        simp only [Bool.or_eq_true, decide_eq_true_eq]
        exact le_total _ _)
      (s.results.filter (fun r => jobIdMatchesRow r jobId))
    simpa using h
  · intro horder
    simp only [getResultsList]
    rw [if_neg hsort]
    unfold resultsSorted
    rw [if_neg horder]
    have h := @List.sorted_mergeSort Rec
      (fun a b : Rec => decide (sortKeyOf sortBy a ≤ sortKeyOf sortBy b))
      (fun a b c hab hbc => by
        simp only [decide_eq_true_eq] at hab hbc ⊢
        exact le_trans hab hbc)
      (fun a b => by
        simp only [Bool.or_eq_true, decide_eq_true_eq]
        exact le_total _ _)
      (s.results.filter (fun r => jobIdMatchesRow r jobId))
    simpa using h
  · intro n hn
    simp only [getResultsList]
    rw [if_neg hn]
  · rfl

/-- C9, witness: the amended statement applied to the one-row database
with `sortBy = 'isTimar'`, `order = 'desc'`, `limit = 5`. -/
theorem getResults_filter_sort_limit_spec_witness :
    ("isTimar" ≠ ("" : String)) ∧
    (∀ r ∈ sampleDb.results, numericOrAbsent (getField r "isTimar") = true) ∧
    getResultsList sampleDb 1 "isTimar" "desc" (some 5) =
      (getResultsList sampleDb 1 "isTimar" "desc" none).take 5 := by
  have hs : ("isTimar" ≠ ("" : String)) := by decide
  have hn : ∀ r ∈ sampleDb.results, numericOrAbsent (getField r "isTimar") = true := by
    intro r hr
    simp only [sampleDb, List.mem_singleton] at hr
    subst hr
    rfl
  exact ⟨hs, hn,
    (getResults_filter_sort_limit_spec sampleDb 1 "isTimar" "desc" (some 5) hs hn).2.2.2.2.1
      5 (by decide)⟩

/-- Job record as created by the start handler and mutated by the
lifecycle callbacks through `updateJob`. -/
structure Job where
  id : ℤ
  status : String
  totalBranches : ℤ
  completedBranches : ℤ
  passingBranches : ℤ
  startedAt : Option String
  completedAt : Option String
  error : Option String

/-- One subscribed SSE client: the messages written to it so far and
whether `client.end()` has been called. -/
structure Client where
  received : List Rec
  ended : Bool

/-- Server-side state of one forge job: the job record, the values
captured by the start handler's closure (`totalBranches`,
`config.tickers.length`), membership in `activeJobs` and `sseClients`,
whether the child process has been killed, and the stream clients. -/
structure SrvState where
  job : Job
  total : ℤ
  tickerCount : ℤ
  active : Bool
  killed : Bool
  subscribed : Bool
  clients : List Client

/-- Final JSON object printed by the engine on stdout, as read by the
completion handler (`result.success`, `result.passingCount`,
`result.results`, `result.stats`, `result.error`). -/
structure EngineResult where
  success : Bool
  passingCount : ℤ
  results : List PyBranchResult
  stats : Val
  error : Option String

/-- One point of the search space, as enumerated by the engine. -/
structure Branch where
  ticker : String
  family : String
  window : ℤ
  comparator : String
  threshold : ℚ

/-- Modelled from the spec: the optimized Python engine
(`src/server/python/optimized_forge_engine.py` is not among the sources
here). Per the spec, the engine backtests every enumerated branch,
applies the in-sample filter, and reports the passing branches: its
`passingCount` is the number of enumerated branches that pass, and its
`results` are exactly the passing branches' result rows. -/
def engineRun (branches : List Branch) (passes : Branch → Bool)
    (metrics : Branch → PyBranchResult) (stats : Val) : EngineResult :=
  { success := true,
    passingCount := ((branches.filter passes).length : ℤ),
    results := (branches.filter passes).map metrics,
    stats := stats,
    error := none }

/-- Rendering of the child-process exit code in template strings: a
process killed by a signal closes with `code = null`. -/
def codeStr (code : Option ℤ) : String :=
  match code with
  | none => "null"
  | some n => toString n

/-- SSE message of the throttled progress broadcast (forge.mjs lines
114-121), fields in literal order. -/
def msgRunning (jobId total completed passing : ℤ) : Rec :=
  [ ("jobId", Val.num (jobId : ℚ)),
    ("status", Val.str "running"),
    ("totalBranches", Val.num (total : ℚ)),
    ("completedBranches", Val.num (completed : ℚ)),
    ("passingBranches", Val.num (passing : ℚ)) ]

/-- SSE message of the completion broadcast (forge.mjs lines 217-225):
`completedBranches` is the captured `totalBranches`. -/
def msgCompleted (jobId total passing : ℤ) (stats : Val) : Rec :=
  [ ("jobId", Val.num (jobId : ℚ)),
    ("status", Val.str "completed"),
    ("totalBranches", Val.num (total : ℚ)),
    ("completedBranches", Val.num (total : ℚ)),
    ("passingBranches", Val.num (passing : ℚ)),
    ("stats", stats) ]

/-- SSE message of the failure broadcast (forge.mjs lines 149-153): only
`jobId`, `status` and an error string. -/
def msgFailed (jobId : ℤ) (code : Option ℤ) : Rec :=
  [ ("jobId", Val.num (jobId : ℚ)),
    ("status", Val.str "failed"),
    ("error", Val.str ("Process failed with code " ++ codeStr code)) ]

/-- SSE message of the cancel broadcast (forge.mjs lines 306-309): only
`jobId` and `status`. -/
def msgCancelled (jobId : ℤ) : Rec :=
  [ ("jobId", Val.num (jobId : ℚ)),
    ("status", Val.str "cancelled") ]

/-- Initial SSE message sent to a newly connected stream client
(forge.mjs lines 260-267), built from the stored job record. -/
def msgInitial (j : Job) : Rec :=
  [ ("jobId", Val.num (j.id : ℚ)),
    ("status", Val.str j.status),
    ("totalBranches", Val.num (j.totalBranches : ℚ)),
    ("completedBranches", Val.num (j.completedBranches : ℚ)),
    ("passingBranches", Val.num (j.passingBranches : ℚ)) ]

/-- Completed-branch count computed by the progress parser (forge.mjs
lines 96-97): `Math.floor(tickersCompleted * (totalBranches /
tickerCount))`. -/
def progressCompleted (total tickerCount tickersCompleted : ℤ) : ℤ :=
  ⌊(tickersCompleted : ℚ) * ((total : ℚ) / (tickerCount : ℚ))⌋

/-- Write one message to a client (`client.write`). -/
def pushMsg (m : Rec) (c : Client) : Client :=
  { c with received := c.received ++ [m] }

/-- Close a client stream (`client.end()`). -/
def endClient (c : Client) : Client :=
  { c with ended := true }

/-- Broadcast to the job's subscriber list (`sseClients.get(jobId) ||
[]`): a write to every current client; nothing when the subscriber entry
is absent. -/
def broadcast (m : Rec) (s : SrvState) : List Client :=
  if s.subscribed then s.clients.map (pushMsg m) else s.clients

/-- Broadcast followed by `client.end()` on every client, as done by the
terminal broadcasts. -/
def broadcastEnd (m : Rec) (s : SrvState) : List Client :=
  if s.subscribed then s.clients.map (fun c => endClient (pushMsg m c)) else s.clients

/-- One callback invocation in the life of a job:
a throttled progress update parsed from the engine's stderr, the
child-process close event (exit code and the parse of the last stdout
line), a cancel request, or a stream-client connection. -/
inductive Ev where
  | progress (tickersCompleted tickersTotal passingCount : ℤ)
  | close (now : String) (code : Option ℤ) (parsed : Except String EngineResult)
  | cancel (now : String)
  | connect

/-- State effect of each handler of `forge.mjs`, in direct
correspondence with the source: the progress handler updates only the
two counters and broadcasts a running message; the close handler marks
the job `failed` for a non-zero (or null) exit code or an unparseable or
unsuccessful result, and otherwise marks it `completed` with
`completedBranches := totalBranches` and `passingBranches :=
result.passingCount`; the cancel handler, when the job is in
`activeJobs`, kills the process, marks the job `cancelled`, and notifies
and closes the stream clients; a connect adds a client that immediately
receives the current job snapshot. The close handler consults neither
`activeJobs` nor the current status before writing. -/
def step (s : SrvState) (e : Ev) : SrvState :=
  match e with
  | Ev.progress tickersCompleted _ passingCount =>
      let completed := progressCompleted s.total s.tickerCount tickersCompleted
      { s with
          job := { s.job with
            completedBranches := completed, passingBranches := passingCount },
          clients := broadcast (msgRunning s.job.id s.total completed passingCount) s }
  | Ev.close now code parsed =>
      if code ≠ some 0 then
        { s with
            job := { s.job with
              status := "failed",
              error := some ("Python process exited with code " ++ codeStr code),
              completedAt := some now },
            clients := broadcastEnd (msgFailed s.job.id code) s,
            active := false, subscribed := false }
      else
        match parsed with
        | Except.ok r =>
            if r.success then
              { s with
                  job := { s.job with
                    status := "completed",
                    completedBranches := s.total,
                    passingBranches := r.passingCount,
                    completedAt := some now },
                  clients := broadcastEnd
                    (msgCompleted s.job.id s.total r.passingCount r.stats) s,
                  active := false, subscribed := false }
            else
              { s with
                  job := { s.job with
                    status := "failed",
                    error := some ("Failed to parse result: " ++
                      (r.error.getD "Unknown error")),
                    completedAt := some now },
                  active := false, subscribed := false }
        | Except.error msg =>
            { s with
                job := { s.job with
                  status := "failed",
                  error := some ("Failed to parse result: " ++ msg),
                  completedAt := some now },
                active := false, subscribed := false }
  | Ev.cancel now =>
      if s.active then
        { s with
            killed := true,
            job := { s.job with status := "cancelled", completedAt := some now },
            active := false,
            clients := broadcastEnd (msgCancelled s.job.id) s,
            subscribed := false }
      else s
  | Ev.connect =>
      { s with
          subscribed := true,
          clients := s.clients ++ [{ received := [msgInitial s.job], ended := false }] }

/-- Server state right after the start handler: the job record is
created with status `running` and zeroed counters, the closure captures
`totalBranches` and the ticker count, the job enters `activeJobs`, and
no stream client exists yet. -/
def startJob (c : ForgeConfig) (id : ℤ) (now : String) : SrvState :=
  { job :=
      { id := id
        status := "running"
        totalBranches := startTotalBranches c
        completedBranches := 0
        passingBranches := 0
        startedAt := some now
        completedAt := none
        error := none }
    total := startTotalBranches c
    tickerCount := (c.tickers.length : ℤ)
    active := true
    killed := false
    subscribed := false
    clients := [] }

/-- A sequence of callback invocations applied in order. -/
def run (s : SrvState) (es : List Ev) : SrvState :=
  es.foldl step s

/-- The default configuration of the Forge dashboard. -/
def simpleCfg : ForgeConfig :=
  { indicator := "RSI", periodMin := 10, periodMax := 14, tickers := ["SPY"],
    comparator := "LT", thresholdMin := 20, thresholdMax := 40, thresholdStep := 1 }

/-- Any single handler invocation either leaves the job status unchanged
or writes one of the three terminal statuses. -/
theorem step_status_cases (s : SrvState) (e : Ev) :
    (step s e).job.status = s.job.status ∨
    (step s e).job.status = "completed" ∨
    (step s e).job.status = "failed" ∨
    (step s e).job.status = "cancelled" := by
  cases e with
  | progress a b c => left; rfl
  | close now code parsed =>
      simp only [step]
      split
      · right; right; left; rfl
      · split
        · split
          · right; left; rfl
          · right; right; left; rfl
        · right; right; left; rfl
  | cancel now =>
      simp only [step]
      split
      · right; right; right; rfl
      · left; rfl
  | connect => left; rfl

/-- Statuses are preserved inside the five-element status set along any
sequence of handler invocations. -/
theorem run_status_mem (s : SrvState) (es : List Ev)
    (h : s.job.status ∈ (["running", "completed", "cancelled", "failed"] : List String)) :
    (run s es).job.status ∈
      (["running", "completed", "cancelled", "failed"] : List String) := by
  induction es generalizing s with
  | nil => exact h
  | cons e es ih =>
      show (run (step s e) es).job.status ∈ _
      apply ih
      rcases step_status_cases s e with h1 | h1 | h1 | h1
      · rw [h1]; exact h
      · simp [h1]
      · simp [h1]
      · simp [h1]

/-- C5, counterexample. A job is never created in status `pending`: the
start handler's `createJob` call passes `status: 'running'` directly, so
the freshly created record already reads `running`. -/
theorem job_created_running_not_pending :
    (startJob simpleCfg 1 "2024-01-01T00:00:00.000Z").job.status = "running" ∧
    (startJob simpleCfg 1 "2024-01-01T00:00:00.000Z").job.status ≠ "pending" := by
  exact ⟨rfl, by decide⟩

/-- C5, amended. A job is created directly in status `running` (there is
no `pending` stage), and every status the job record ever holds along
any sequence of handler invocations is one of `running`, `completed`,
`cancelled`, `failed`. -/
theorem job_status_state_machine (c : ForgeConfig) (id : ℤ) (now : String) (es : List Ev) :
    (startJob c id now).job.status = "running" ∧
    (run (startJob c id now) es).job.status ∈
      (["running", "completed", "cancelled", "failed"] : List String) :=
  ⟨rfl, run_status_mem _ es (by simp [startJob])⟩

/-- C3. Cancelling a running job writes the terminal status `cancelled`,
but the killed child process then closes with a null exit code and the
close handler — which never checks the current status — overwrites the
record to `failed`: the terminal status `cancelled` is not final. -/
theorem cancel_then_close_overwrites_status :
    (run (startJob simpleCfg 1 "t0") [Ev.cancel "t1"]).job.status = "cancelled" ∧
    (run (startJob simpleCfg 1 "t0")
        [Ev.cancel "t1", Ev.close "t2" none (Except.error "empty stdout")]).job.status
      = "failed" := by
  exact ⟨rfl, rfl⟩

/-- C4. A cancel request for a job present in `activeJobs` kills the
worker process, sets the job status to `cancelled` with a completion
timestamp, removes the job from `activeJobs`, drops the subscriber
entry, and — when a subscriber list exists — writes the `cancelled`
message to every stream client and closes it. -/
theorem cancel_running_job_spec (s : SrvState) (now : String)
    (hactive : s.active = true) :
    (step s (Ev.cancel now)).killed = true ∧
    (step s (Ev.cancel now)).job.status = "cancelled" ∧
    (step s (Ev.cancel now)).job.completedAt = some now ∧
    (step s (Ev.cancel now)).active = false ∧
    (step s (Ev.cancel now)).subscribed = false ∧
    (s.subscribed = true →
      (step s (Ev.cancel now)).clients =
        s.clients.map (fun c =>
          { received := c.received ++ [msgCancelled s.job.id], ended := true })) := by
  unfold step
  rw [hactive]
  refine ⟨rfl, rfl, rfl, rfl, rfl, ?_⟩
  intro hsub
  simp [broadcastEnd, hsub, pushMsg, endClient]

/-- C4, witness: a freshly started job with one connected stream client
is cancelled. -/
theorem cancel_running_job_spec_witness :
    (run (startJob simpleCfg 1 "t0") [Ev.connect]).active = true ∧
    (step (run (startJob simpleCfg 1 "t0") [Ev.connect]) (Ev.cancel "t1")).job.status
      = "cancelled" := by
  have h := cancel_running_job_spec (run (startJob simpleCfg 1 "t0") [Ev.connect]) "t1" rfl
  exact ⟨rfl, h.2.1⟩

/-- C2. When the engine process exits with code 0 and its final stdout
line parses as a success result reported by the (spec-modelled) engine,
the close handler writes status `completed` with `completedBranches`
equal to `totalBranches` and `passingBranches ≤ completedBranches`. The
hypotheses say that the job record still carries the `totalBranches`
written at creation (no handler changes it) and that the engine
enumerated exactly `totalBranches` branches, which the spec's
total-branch invariant guarantees. -/
theorem job_completed_counts_invariant (s : SrvState) (now : String)
    (branches : List Branch) (passes : Branch → Bool)
    (metrics : Branch → PyBranchResult) (stats : Val)
    (htotal : s.job.totalBranches = s.total)
    (hcount : (branches.length : ℤ) = s.total) :
    (step s (Ev.close now (some 0)
        (Except.ok (engineRun branches passes metrics stats)))).job.status
      = "completed" ∧
    (step s (Ev.close now (some 0)
        (Except.ok (engineRun branches passes metrics stats)))).job.completedBranches
      = (step s (Ev.close now (some 0)
          (Except.ok (engineRun branches passes metrics stats)))).job.totalBranches ∧
    (step s (Ev.close now (some 0)
        (Except.ok (engineRun branches passes metrics stats)))).job.passingBranches
      ≤ (step s (Ev.close now (some 0)
          (Except.ok (engineRun branches passes metrics stats)))).job.completedBranches := by
  refine ⟨rfl, ?_, ?_⟩
  · show s.total = s.job.totalBranches
    exact htotal.symm
  · show ((branches.filter passes).length : ℤ) ≤ s.total
    rw [← hcount]
    exact_mod_cast List.length_filter_le passes branches

/-- A one-branch configuration: one ticker, one window, one comparator,
one threshold. -/
def oneCfg : ForgeConfig :=
  { indicator := "RSI", periodMin := 5, periodMax := 5, tickers := ["SPY"],
    comparator := "LT", thresholdMin := 0, thresholdMax := 0, thresholdStep := 1 }

/-- The single branch of `oneCfg`. -/
def sampleBranch : Branch :=
  { ticker := "SPY", family := "RSI", window := 5, comparator := "LT", threshold := 0 }

/-- C2, witness: the one-branch job completes with a passing branch. -/
theorem job_completed_counts_invariant_witness :
    (startJob oneCfg 1 "t0").job.totalBranches = (startJob oneCfg 1 "t0").total ∧
    (([sampleBranch] : List Branch).length : ℤ) = (startJob oneCfg 1 "t0").total ∧
    (step (startJob oneCfg 1 "t0") (Ev.close "t1" (some 0)
        (Except.ok (engineRun [sampleBranch] (fun _ => true)
          (fun _ => sampleBranchResult) (Val.obj []))))).job.status = "completed" := by
  have h1 : (startJob oneCfg 1 "t0").job.totalBranches = (startJob oneCfg 1 "t0").total := rfl
  have h2 : (([sampleBranch] : List Branch).length : ℤ) = (startJob oneCfg 1 "t0").total := by
    norm_num [startJob, startTotalBranches, oneCfg]
    decide
  exact ⟨h1, h2,
    (job_completed_counts_invariant (startJob oneCfg 1 "t0") "t1" [sampleBranch]
      (fun _ => true) (fun _ => sampleBranchResult) (Val.obj []) h1 h2).1⟩

/-- The five fields the claim requires of every progress event. -/
def progressFields : List String :=
  ["jobId", "completedBranches", "totalBranches", "passingBranches", "status"]

/-- Whether a message carries all five progress fields. -/
def carriesProgressFields (m : Rec) : Bool :=
  progressFields.all (fun f => (getField m f).isSome)

/-- C8, counterexample. The cancel broadcast carries only `jobId` and
`status`: the `completedBranches`, `totalBranches` and `passingBranches`
fields are absent from the published event. -/
theorem cancelled_event_missing_fields :
    carriesProgressFields (msgCancelled 1) = false ∧
    getField (msgCancelled 1) "completedBranches" = none ∧
    getField (msgCancelled 1) "totalBranches" = none ∧
    getField (msgCancelled 1) "passingBranches" = none ∧
    getField (msgCancelled 1) "status" = some (Val.str "cancelled") := by
  exact ⟨rfl, rfl, rfl, rfl, rfl⟩

/-- C8, amended. The initial, running and completion events carry all of
`jobId`, `completedBranches`, `totalBranches`, `passingBranches` and
`status` (the failure and cancel events do not); no handler ever changes
the job's `id` or `totalBranches`, so those fields are constant across a
job's events; the `completedBranches` published by the running events is
monotone in the engine-reported completed-ticker count and never exceeds
`totalBranches`; and the completion event carries `completedBranches`
equal to `totalBranches`. -/
theorem progress_event_fields_monotone
    (jobId total completed passing tickerCount t1 t2 : ℤ) (stats : Val) (j : Job)
    (hT : 0 ≤ total) (hk : 0 < tickerCount) (h12 : t1 ≤ t2) (h2k : t2 ≤ tickerCount) :
    carriesProgressFields (msgRunning jobId total completed passing) = true ∧
    carriesProgressFields (msgCompleted jobId total passing stats) = true ∧
    carriesProgressFields (msgInitial j) = true ∧
    (∀ (s : SrvState) (e : Ev), (step s e).job.id = s.job.id) ∧
    (∀ (s : SrvState) (e : Ev), (step s e).job.totalBranches = s.job.totalBranches) ∧
    progressCompleted total tickerCount t1 ≤ progressCompleted total tickerCount t2 ∧
    progressCompleted total tickerCount t2 ≤ total ∧
    getField (msgCompleted jobId total passing stats) "completedBranches"
      = some (Val.num (total : ℚ)) ∧
    getField (msgCompleted jobId total passing stats) "totalBranches"
      = some (Val.num (total : ℚ)) := by
  have hratio : (0 : ℚ) ≤ (total : ℚ) / (tickerCount : ℚ) := by
    apply div_nonneg
    · exact_mod_cast hT
    · exact_mod_cast le_of_lt hk
  refine ⟨rfl, rfl, rfl, ?_, ?_, ?_, ?_, rfl, rfl⟩
  · intro s e
    cases e with
    | progress a b c => rfl
    | close now code parsed =>
        simp only [step]
        split
        · rfl
        · split
          · split
            · rfl
            · rfl
          · rfl
    | cancel now =>
        simp only [step]
        split
        · rfl
        · rfl
    | connect => rfl
  · intro s e
    cases e with
    | progress a b c => rfl
    | close now code parsed =>
        simp only [step]
        split
        · rfl
        · split
          · split
            · rfl
            · rfl
          · rfl
    | cancel now =>
        simp only [step]
        split
        · rfl
        · rfl
    | connect => rfl
  · apply Int.floor_le_floor
    apply mul_le_mul_of_nonneg_right _ hratio
    exact_mod_cast h12
  · have hle : (t2 : ℚ) * ((total : ℚ) / (tickerCount : ℚ)) ≤ (total : ℚ) := by
      have h1 : (t2 : ℚ) * ((total : ℚ) / (tickerCount : ℚ)) ≤
          (tickerCount : ℚ) * ((total : ℚ) / (tickerCount : ℚ)) := by
        apply mul_le_mul_of_nonneg_right _ hratio
        exact_mod_cast h2k
      have h2 : (tickerCount : ℚ) * ((total : ℚ) / (tickerCount : ℚ)) = (total : ℚ) := by
        rw [mul_div_assoc']
        exact mul_div_cancel_left₀ _ (by exact_mod_cast ne_of_gt hk)
      rw [h2] at h1
      exact h1
    calc progressCompleted total tickerCount t2
        ≤ ⌊(total : ℚ)⌋ := Int.floor_le_floor hle
      _ = total := Int.floor_intCast total

/-- C8, witness: a two-ticker job with ten branches, progress reported
after one and then two tickers. -/
theorem progress_event_fields_monotone_witness :
    (0 : ℤ) ≤ 10 ∧ (0 : ℤ) < 2 ∧ (1 : ℤ) ≤ 2 ∧ (2 : ℤ) ≤ 2 ∧
    progressCompleted 10 2 1 ≤ progressCompleted 10 2 2 ∧
    progressCompleted 10 2 2 ≤ 10 := by
  have h := progress_event_fields_monotone 1 10 5 2 2 1 2 (Val.obj [])
    (startJob simpleCfg 1 "t0").job (by decide) (by decide) (by decide) (by decide)
  exact ⟨by decide, by decide, by decide, by decide, h.2.2.2.2.2.1, h.2.2.2.2.2.2.1⟩
